import Mathlib

/-!
Verification of the multi-provider search and collection core of the
repository (services under src/services).  Python dictionaries with a fixed
key set are embedded as Lean structures; dictionaries used as finite maps are
embedded as association lists; network and filesystem effects are supplied by
explicit environment records; Python exceptions are values of an error type
threaded through the control flow exactly where the source catches them.
-/

/-- Python exception values as they matter to the embedded control flow. -/
inductive PyErr where
  | nameError (n : String)
  | attributeError (a : String)
  | importError (n : String)
  | fileNotFound (msg : String)
  | other (msg : String)
deriving Repr, DecidableEq

/-- Rendering of an exception as Python str(e), used where the source stores
the message in an error field. -/
def PyErr.toMessage : PyErr → String
  | .nameError n => "name " ++ n ++ " is not defined"
  | .attributeError a => "object has no attribute " ++ a
  | .importError n => "cannot import name " ++ n
  | .fileNotFound m => m
  | .other m => m

/-- Association-list lookup, embedding a Python dict read m.get(k). -/
def assocGet {α : Type} : List (String × α) → String → Option α
  | [], _ => none
  | p :: t, k => if p.1 = k then some p.2 else assocGet t k

/-- Association-list store, embedding a Python dict assignment m[k] = v
(updates the binding in place when the key exists, appends otherwise). -/
def assocSet {α : Type} (m : List (String × α)) (k : String) (v : α) :
    List (String × α) :=
  if m.any (fun p => p.1 = k) then
    m.map (fun p => if p.1 = k then (k, v) else p)
  else m ++ [(k, v)]

/-- Embedding of the counter update in get_next_api_key, source lines
108-110: insert 0 when the provider is missing, then add one. -/
def assocBump (m : List (String × Nat)) (k : String) : List (String × Nat) :=
  let m1 := if (assocGet m k).isSome then m else m ++ [(k, 0)]
  m1.map (fun p => if p.1 = k then (p.1, p.2 + 1) else p)

/-- Mutable credential state of RealSearchOrchestrator: the api_keys pools,
the per-provider rotation cursors and the api_rotations statistics counters
(source real_search_orchestrator.py, constructor lines 28-29 and 54-61). -/
structure RSOState where
  api_keys : List (String × List String)
  key_indices : List (String × Nat)
  api_rotations : List (String × Nat)
deriving Repr

/-- Initial credential state built by the constructor from a loaded pool map:
every pooled provider starts with cursor 0 and no rotation counters. -/
def RSOState.init (pools : List (String × List String)) : RSOState :=
  { api_keys := pools
    key_indices := pools.map (fun p => (p.1, 0))
    api_rotations := [] }

/-- Embedding of RealSearchOrchestrator.get_next_api_key (source lines
93-113).  A provider that is absent from api_keys or has an empty pool yields
none and leaves the state unchanged; otherwise the key at the current cursor
is returned, the cursor advances by one modulo the pool size and the
rotation counter is incremented.  The cursor read key_indices[provider] is
total here with default 0; the constructor initialises a cursor for exactly
the providers present in api_keys, so the default is never consulted on
states reachable from RSOState.init. -/
def get_next_api_key (st : RSOState) (provider : String) :
    Option String × RSOState :=
  match assocGet st.api_keys provider with
  | none => (none, st)
  | some keys =>
    if keys.isEmpty then (none, st)
    else
      let current_index := (assocGet st.key_indices provider).getD 0
      let key := keys.getD current_index ""
      (some key,
        { st with
          key_indices :=
            assocSet st.key_indices provider ((current_index + 1) % keys.length)
          api_rotations := assocBump st.api_rotations provider })

/-- A sequence of n consecutive get_next_api_key calls for one provider,
collecting the returned credentials in order. -/
def rotate_calls (provider : String) : Nat → RSOState → List (Option String) × RSOState
  | 0, st => ([], st)
  | Nat.succ n, st =>
    let r := get_next_api_key st provider
    let rest := rotate_calls provider n r.2
    (r.1 :: rest.1, rest.2)

/-- One normalized result record as built by the provider adapters: a Python
dict whose keys may be absent (none) or hold null (also none here, since the
source only reads them through .get with a default).  Engagement metrics are
Python ints. -/
structure ResultRec where
  title : Option String := none
  url : Option String := none
  snippet : Option String := none
  source : Option String := none
  content : Option String := none
  likes : Option Int := none
  comments : Option Int := none
  shares : Option Int := none
  platform : Option String := none
  published_at : Option String := none
deriving Repr, DecidableEq

/-- Uniform adapter return shape: the success/failure dicts built by the
search methods of RealSearchOrchestrator. -/
structure SearchOutcome where
  success : Bool
  provider : Option String := none
  platform : Option String := none
  results : List ResultRec := []
  error : Option String := none
deriving Repr, DecidableEq

/-- One observed HTTP interaction: either the request machinery raised, or a
response arrived with a status code and a parsed payload (the payload field
is only consulted on status 200, the errText only otherwise). -/
inductive HttpOutcome (α : Type) where
  | raises (e : PyErr)
  | resp (status : Nat) (payload : α) (errText : String)
deriving Repr

/-- Names bound at module level in real_search_orchestrator.py (lines 8-21):
the import statements bind exactly these.  The name re is absent - the
module never imports re. -/
def rso_module_names : List String :=
  ["os", "logging", "asyncio", "aiohttp", "time", "Dict", "List", "Any",
   "Optional", "datetime", "ThreadPoolExecutor", "quote_plus", "json",
   "predictive_analytics_service", "logger", "RealSearchOrchestrator",
   "real_search_orchestrator"]

/-- Names bound at module level in services/alibaba_websailor.py: the module
defines the class and the global instance alibaba_websailor_agent (line 501)
but no name alibaba_websailor. -/
def alibaba_websailor_module_names : List String :=
  ["os", "logging", "time", "requests", "json", "random", "Dict", "List",
   "Optional", "Any", "quote_plus", "urljoin", "urlparse", "BeautifulSoup",
   "datetime", "re", "ThreadPoolExecutor", "as_completed", "salvar_etapa",
   "salvar_erro", "salvar_trecho_pesquisa_web", "predictive_analytics_service",
   "visual_content_capture", "HAS_EXA", "logger", "AlibabaWebSailorAgent",
   "alibaba_websailor_agent"]

/-- Attributes reachable on the visual_content_capture instance: methods of
class VisualContentCapture (visual_content_capture.py lines 27-211) plus the
instance attributes set in its constructor.  No capture_screenshot_async is
defined. -/
def visual_content_capture_attrs : List String :=
  ["driver", "wait_timeout", "page_load_timeout", "_setup_driver",
   "_create_session_directory", "capture_screenshot", "cleanup_old_screenshots"]

/-- Embedding of _extract_search_results_from_content (source lines 668-695).
The two re.findall behaviours are passed in as functions so that the branch
that would run them is fully represented; the branch is dead because the
module-level name re is not bound, so evaluating re.findall raises NameError
before any matching happens. -/
def _extract_search_results_from_content
    (findallLinks : String → List (String × String))
    (findallUrls : String → List String)
    (content source : String) : Except PyErr (List ResultRec) :=
  if rso_module_names.contains "re" then
    let links := findallLinks content
    let fromLinks : List ResultRec := links.map (fun tu =>
      { title := some tu.1, url := some tu.2, snippet := some "",
        source := some source })
    if fromLinks.isEmpty then
      let fromUrls : List ResultRec := (findallUrls content).map (fun u =>
        { title := some ("Conteúdo de " ++ u), url := some u,
          snippet := some (if content.length > 200 then
            (content.take 200) ++ "..." else content),
          source := some source })
      .ok fromUrls
    else .ok fromLinks
  else .error (.nameError "re")

/-- Embedding of _identify_viral_content (source lines 630-648): keeps the
items whose engagement metrics (read with default 0) reach any of the three
thresholds. -/
def viral_threshold_likes : Int := 1000
def viral_threshold_comments : Int := 100
def viral_threshold_shares : Int := 50

def is_viral_item (item : ResultRec) : Bool :=
  viral_threshold_likes ≤ item.likes.getD 0 ∨
  viral_threshold_comments ≤ item.comments.getD 0 ∨
  viral_threshold_shares ≤ item.shares.getD 0

def _identify_viral_content (social_media_results : List ResultRec) :
    List ResultRec :=
  social_media_results.filter is_viral_item

/-- A truthiness test for an optional string, as Python applies to values read
with dict.get: absent (None) and the empty string are falsy. -/
def truthyStr : Option String → Bool
  | none => false
  | some s => decide (s ≠ "")

/-- One parsed item of a generic web-search response body.  Each adapter reads
its own key names from the provider's JSON (google and serper read link and
snippet, exa reads url and text); here each read key is a field, absent keys
are none exactly as item.get returns None. -/
structure RawWebItem where
  title : Option String := none
  link : Option String := none
  url : Option String := none
  snippet : Option String := none
  text : Option String := none
deriving Repr, DecidableEq

/-- One parsed item of a YouTube search response.  The source indexes these
with brackets (item.snippet.title and so on), so a well-formed response
carries all four strings. -/
structure RawYtItem where
  title : String
  videoId : String
  description : String
  publishedAt : String
deriving Repr, DecidableEq

/-- Embedding of _search_firecrawl (source lines 315-366).  The HTTP exchange
is supplied as an event; its 200-payload is the markdown content read from
data.get of the response.  Every 200 path calls
_extract_search_results_from_content, whose NameError is caught by the
enclosing except and converted to the failure shape. -/
def _search_firecrawl (st : RSOState) (http : HttpOutcome String)
    (findallLinks : String → List (String × String))
    (findallUrls : String → List String) : SearchOutcome × RSOState :=
  let r := get_next_api_key st "FIRECRAWL"
  match r.1 with
  | none => ({ success := false, error := some "Firecrawl API key não disponível" }, r.2)
  | some k =>
    if k = "" then
      ({ success := false, error := some "Firecrawl API key não disponível" }, r.2)
    else
      match http with
      | .raises e => ({ success := false, error := some e.toMessage }, r.2)
      | .resp status content _errText =>
        if status = 200 then
          match _extract_search_results_from_content findallLinks findallUrls
              content "firecrawl" with
          | .error e => ({ success := false, error := some e.toMessage }, r.2)
          | .ok results =>
            ({ success := true, provider := some "FIRECRAWL", results := results }, r.2)
        else
          ({ success := false, error := some ("HTTP " ++ toString status) }, r.2)

/-- One iteration of the per-URL loop inside _search_jina (source lines
385-405): a non-200 status appends nothing, an exception inside the loop body
(including the NameError from the extraction helper) is caught and the loop
continues, a successful extraction extends the accumulator. -/
def jina_iteration (findallLinks : String → List (String × String))
    (findallUrls : String → List String)
    (acc : List ResultRec) (ev : HttpOutcome String) : List ResultRec :=
  match ev with
  | .raises _ => acc
  | .resp status content _ =>
    if status = 200 then
      match _extract_search_results_from_content findallLinks findallUrls
          content "jina" with
      | .error _ => acc
      | .ok ext => acc ++ ext
    else acc

/-- Embedding of _search_jina (source lines 368-415): three search URLs are
fetched through the Jina reader, the per-URL bodies are supplied as three
events, and the final result list is truncated to 20 entries. -/
def _search_jina (st : RSOState) (sessionRaises : Option PyErr)
    (ev1 ev2 ev3 : HttpOutcome String)
    (findallLinks : String → List (String × String))
    (findallUrls : String → List String) : SearchOutcome × RSOState :=
  let r := get_next_api_key st "JINA"
  match r.1 with
  | none => ({ success := false, error := some "Jina API key não disponível" }, r.2)
  | some k =>
    if k = "" then
      ({ success := false, error := some "Jina API key não disponível" }, r.2)
    else
      match sessionRaises with
      | some e => ({ success := false, error := some e.toMessage }, r.2)
      | none =>
        let results := [ev1, ev2, ev3].foldl (jina_iteration findallLinks findallUrls) []
        ({ success := true, provider := some "JINA", results := results.take 20 }, r.2)

/-- Embedding of _search_google (source lines 417-456). -/
def _search_google (st : RSOState) (getenv : String → Option String)
    (http : HttpOutcome (List RawWebItem)) : SearchOutcome × RSOState :=
  let r := get_next_api_key st "GOOGLE"
  let cx := getenv "GOOGLE_CSE_ID"
  if !truthyStr r.1 || !truthyStr cx then
    ({ success := false, error := some "Google API key ou CSE ID não disponível" }, r.2)
  else
    match http with
    | .raises e => ({ success := false, error := some e.toMessage }, r.2)
    | .resp status items _errText =>
      if status = 200 then
        ({ success := true, provider := some "GOOGLE",
           results := items.map (fun it =>
             { title := it.title, url := it.link, snippet := it.snippet,
               source := some "google" }) }, r.2)
      else
        ({ success := false, error := some ("HTTP " ++ toString status) }, r.2)

/-- Embedding of _search_exa (source lines 458-497). -/
def _search_exa (st : RSOState) (http : HttpOutcome (List RawWebItem)) :
    SearchOutcome × RSOState :=
  let r := get_next_api_key st "EXA"
  match r.1 with
  | none => ({ success := false, error := some "Exa API key não disponível" }, r.2)
  | some k =>
    if k = "" then
      ({ success := false, error := some "Exa API key não disponível" }, r.2)
    else
      match http with
      | .raises e => ({ success := false, error := some e.toMessage }, r.2)
      | .resp status items _errText =>
        if status = 200 then
          ({ success := true, provider := some "EXA",
             results := items.map (fun it =>
               { title := it.title, url := it.url, snippet := it.text,
                 source := some "exa" }) }, r.2)
        else
          ({ success := false, error := some ("HTTP " ++ toString status) }, r.2)

/-- Embedding of _search_serper (source lines 499-538). -/
def _search_serper (st : RSOState) (http : HttpOutcome (List RawWebItem)) :
    SearchOutcome × RSOState :=
  let r := get_next_api_key st "SERPER"
  match r.1 with
  | none => ({ success := false, error := some "Serper API key não disponível" }, r.2)
  | some k =>
    if k = "" then
      ({ success := false, error := some "Serper API key não disponível" }, r.2)
    else
      match http with
      | .raises e => ({ success := false, error := some e.toMessage }, r.2)
      | .resp status items _errText =>
        if status = 200 then
          ({ success := true, provider := some "SERPER",
             results := items.map (fun it =>
               { title := it.title, url := it.link, snippet := it.snippet,
                 source := some "serper" }) }, r.2)
        else
          ({ success := false, error := some ("HTTP " ++ toString status) }, r.2)

/-- Embedding of _search_youtube (source lines 540-581). -/
def _search_youtube (st : RSOState) (http : HttpOutcome (List RawYtItem)) :
    SearchOutcome × RSOState :=
  let r := get_next_api_key st "YOUTUBE"
  match r.1 with
  | none => ({ success := false, error := some "YouTube API key não disponível" }, r.2)
  | some k =>
    if k = "" then
      ({ success := false, error := some "YouTube API key não disponível" }, r.2)
    else
      match http with
      | .raises e => ({ success := false, error := some e.toMessage }, r.2)
      | .resp status items _errText =>
        if status = 200 then
          ({ success := true, provider := some "YOUTUBE", platform := some "youtube",
             results := items.map (fun it =>
               { title := some it.title,
                 url := some ("https://www.youtube.com/watch?v=" ++ it.videoId),
                 snippet := some it.description, source := some "youtube",
                 published_at := some it.publishedAt }) }, r.2)
        else
          ({ success := false, error := some ("HTTP " ++ toString status) }, r.2)

/-- Orchestrator environment: all effects of one execute_massive_real_search
run that are decided outside the embedded code (network responses, clock
values, the behaviour of branches that are statically dead), supplied as
data. -/
structure OrchestratorEnv where
  getenv : String → Option String
  findallLinks : String → List (String × String)
  findallUrls : String → List String
  websailor_if_imported : SearchOutcome
  firecrawl_http : HttpOutcome String
  jina_session_raises : Option PyErr
  jina_ev1 : HttpOutcome String
  jina_ev2 : HttpOutcome String
  jina_ev3 : HttpOutcome String
  google_http : HttpOutcome (List RawWebItem)
  exa_http : HttpOutcome (List RawWebItem)
  serper_http : HttpOutcome (List RawWebItem)
  youtube_http : HttpOutcome (List RawYtItem)
  captureAsync : String → String → Option String
  search_started : String
  search_duration : Nat
  engine_analysis : Except PyErr String

/-- Embedding of _search_alibaba_websailor (source lines 263-313).  The
statement from services.alibaba_websailor import alibaba_websailor binds a
name the target module does not define, so the import raises ImportError and
the except ImportError arm (lines 308-310) returns the failure dict; the body
that would run on a successful import is supplied by the environment. -/
def _search_alibaba_websailor (env : OrchestratorEnv) : SearchOutcome :=
  if alibaba_websailor_module_names.contains "alibaba_websailor" then
    env.websailor_if_imported
  else
    { success := false, error := some "Alibaba WebSailor não disponível" }

/-- Embedding of _capture_viral_screenshots (source lines 650-666).  For each
viral item with a truthy url the source awaits
visual_content_capture.capture_screenshot_async; the attribute lookup raises
AttributeError because VisualContentCapture defines no such method, the
per-item except catches it, and nothing is appended.  The behaviour the call
would have if the attribute existed is supplied as captureAsync. -/
def _capture_viral_screenshots (captureAsync : String → String → Option String)
    (viral : List ResultRec) (session_id : String) : List String :=
  viral.foldl (fun acc item =>
    if truthyStr item.url then
      if visual_content_capture_attrs.contains "capture_screenshot_async" then
        match captureAsync (item.url.getD "") session_id with
        | some path => acc ++ [path]
        | none => acc
      else acc
    else acc) []

/-- Value of the predictive_insights entry of the orchestrator document. -/
inductive PredInsights where
  | engine (data : String)
  | failure (error : String)
deriving Repr, DecidableEq

/-- Embedding of PredictiveAnalyticsService.analyze_all_data (source
predictive_analytics_service.py lines 28-46).  The engine call (module
engine.predictive_analytics_engine, not under src/) is an environment value.
Modelled from the spec: the persistence helpers salvar_etapa and salvar_erro
of services.auto_save_manager (not under src/) persist their payload and do
not raise, per the error-propagation policy of the spec (section 7). -/
def analyze_all_data (engine_analysis : Except PyErr String) : PredInsights :=
  match engine_analysis with
  | .ok d => .engine d
  | .error e => .failure e.toMessage

/-- Statistics block of the orchestrator document (dict literal lines
137-143, updated at lines 245-251). -/
structure SearchStats where
  total_sources : Nat
  unique_urls : Nat
  content_extracted : Nat
  api_calls_made : Nat
  search_duration : Nat
deriving Repr, DecidableEq

/-- The orchestrator document built at lines 127-144 and returned at line
257, with the predictive_insights entry added at line 237. -/
structure SearchDoc where
  query : String
  session_id : String
  search_started : String
  providers_used : List String
  web_results : List ResultRec
  social_results : List ResultRec
  youtube_results : List ResultRec
  viral_content : List ResultRec
  screenshots_captured : List String
  statistics : SearchStats
  predictive_insights : PredInsights
deriving Repr, DecidableEq

/-- The exact dict keys ever written into the orchestrator result dict on its
return path: the ten keys of the literal at lines 127-144 plus
predictive_insights (line 237).  No key success and no error key is ever
written. -/
def search_results_keys : List String :=
  ["query", "session_id", "search_started", "providers_used", "web_results",
   "social_results", "youtube_results", "viral_content", "screenshots_captured",
   "statistics", "predictive_insights"]

/-- Phase 2 of execute_massive_real_search (lines 156-182): one task per
provider present in api_keys, in the fixed order firecrawl, jina, google,
exa, serper; asyncio.gather returns the outcomes in task order.  The shared
credential state is threaded in task order; each adapter only touches its own
provider's cursor and counter. -/
def appendIf (provider : String) (f : RSOState → SearchOutcome × RSOState)
    (acc : List SearchOutcome × RSOState) : List SearchOutcome × RSOState :=
  if (assocGet acc.2.api_keys provider).isSome then
    let r := f acc.2
    (acc.1 ++ [r.1], r.2)
  else acc

def phase2_run (st : RSOState) (env : OrchestratorEnv) :
    List SearchOutcome × RSOState :=
  appendIf "SERPER" (fun s => _search_serper s env.serper_http)
    (appendIf "EXA" (fun s => _search_exa s env.exa_http)
      (appendIf "GOOGLE" (fun s => _search_google s env.getenv env.google_http)
        (appendIf "JINA" (fun s => _search_jina s env.jina_session_raises
          env.jina_ev1 env.jina_ev2 env.jina_ev3 env.findallLinks env.findallUrls)
          (appendIf "FIRECRAWL" (fun s => _search_firecrawl s env.firecrawl_http
            env.findallLinks env.findallUrls)
            ([], st)))))

/-- The merge step of the phase-2 result loop (lines 184-191): an outcome
contributes its results and its provider name only when it is successful and
its result list is non-empty (both reads are truthy tests). -/
def merge_web (acc : List ResultRec × List String) (o : SearchOutcome) :
    List ResultRec × List String :=
  if o.success && !o.results.isEmpty then
    (acc.1 ++ o.results, acc.2 ++ [o.provider.getD "unknown"])
  else acc

/-- The merge step of the phase-3 social loop (lines 209-218): a successful
outcome extends youtube_results when its platform entry equals youtube and
social_results otherwise; providers_used is not touched in this phase. -/
def merge_social (acc : List ResultRec × List ResultRec) (o : SearchOutcome) :
    List ResultRec × List ResultRec :=
  if o.success then
    if o.platform = some "youtube" then (acc.1 ++ o.results, acc.2)
    else (acc.1, acc.2 ++ o.results)
  else acc

/-- The unique-URL statistic (lines 243 and 247): the number of distinct raw
url strings among results whose url entry is truthy.  No normalisation of
case, scheme or trailing slash is applied. -/
def unique_url_count (all_results : List ResultRec) : Nat :=
  (((all_results.filter (fun r => truthyStr r.url)).map
    (fun r => r.url.getD "")).dedup).length

/-- Phase 1 merged with the phase-2 loop: the fold starts from the websailor
contribution (results and provider name only on success, lines 151-154). -/
def orchestrator_merged (st : RSOState) (env : OrchestratorEnv) :
    List ResultRec × List String :=
  let ws := _search_alibaba_websailor env
  (phase2_run st env).1.foldl merge_web
    (if ws.success then ws.results else [],
     if ws.success then ["ALIBABA_WEBSAILOR"] else [])

/-- Phase 3 (lines 193-218): the Supadata task is commented out in the source
(lines 202-203), so the social wave holds at most the YouTube task. -/
def phase3_run (st : RSOState) (env : OrchestratorEnv) :
    List SearchOutcome × RSOState :=
  if (assocGet st.api_keys "YOUTUBE").isSome then
    let r := _search_youtube st env.youtube_http
    ([r.1], r.2)
  else ([], st)

/-- The (youtube_results, social_results) pair after the phase-3 loop. -/
def orchestrator_social (st : RSOState) (env : OrchestratorEnv) :
    List ResultRec × List ResultRec :=
  (phase3_run (phase2_run st env).2 env).1.foldl merge_social ([], [])

/-- The credential state after both waves. -/
def orchestrator_final_state (st : RSOState) (env : OrchestratorEnv) : RSOState :=
  (phase3_run (phase2_run st env).2 env).2

/-- Embedding of execute_massive_real_search (source lines 115-261).  All
phase-level effects come from env; the function is total because phase 1
catches every exception internally, gather is called with
return_exceptions=True over adapters that each catch internally, phases 4-5
are pure, and phase 6 catches every engine exception (given the spec-modelled
non-raising persistence helpers); hence the except arm at lines 259-261,
which would re-raise, is never entered. -/
def execute_massive_real_search (st : RSOState) (env : OrchestratorEnv)
    (query session_id : String) : SearchDoc × RSOState :=
  -- FASE 1 e FASE 2
  let merged := orchestrator_merged st env
  -- FASE 3
  let social := orchestrator_social st env
  -- FASE 4
  let viral_content := _identify_viral_content (social.1 ++ social.2)
  -- FASE 5
  let screenshots_captured :=
    if viral_content.isEmpty then []
    else _capture_viral_screenshots env.captureAsync viral_content session_id
  -- FASE 6 e estatísticas finais
  let finalState := orchestrator_final_state st env
  let all_results := merged.1 ++ social.2 ++ social.1
  ({ query := query
     session_id := session_id
     search_started := env.search_started
     providers_used := merged.2
     web_results := merged.1
     social_results := social.2
     youtube_results := social.1
     viral_content := viral_content
     screenshots_captured := screenshots_captured
     statistics :=
       { total_sources := all_results.length
         unique_urls := unique_url_count all_results
         content_extracted :=
           (all_results.map (fun r => (r.content.getD "").length)).sum
         api_calls_made := (finalState.api_rotations.map (fun p => p.2)).sum
         search_duration := env.search_duration }
     predictive_insights := analyze_all_data env.engine_analysis }, finalState)

/-- The numbered-key while loop of _load_all_api_keys (source lines 78-85).
The OS environment is a finite map, so the loop terminates; the fuel argument
is any bound on the number of consecutive numbered keys present. -/
def collect_numbered_keys (getenv : String → Option String) (provider : String) :
    Nat → Nat → List String
  | 0, _ => []
  | Nat.succ fuel, counter =>
    match getenv (provider ++ "_API_KEY_" ++ toString counter) with
    | some k => k :: collect_numbered_keys getenv provider fuel (counter + 1)
    | none => []

/-- The provider list iterated by _load_all_api_keys (source line 69). -/
def providers_env_list : List String :=
  ["FIRECRAWL", "JINA", "GOOGLE", "EXA", "SERPER", "YOUTUBE", "SUPADATA", "X"]

/-- Embedding of _load_all_api_keys (source lines 65-91): a provider enters
the pool map only when at least one key is configured. -/
def _load_all_api_keys (getenv : String → Option String) (fuel : Nat) :
    List (String × List String) :=
  providers_env_list.foldl (fun acc provider =>
    let mainKeys : List String :=
      match getenv (provider ++ "_API_KEY") with
      | some k => [k]
      | none => []
    let keys := mainKeys ++ collect_numbered_keys getenv provider fuel 1
    if keys.isEmpty then acc else acc ++ [(provider, keys)]) []

def afterDoubleSlash : List Char → Option (List Char)
  | [] => none
  | '/' :: '/' :: rest => some rest
  | _ :: t => afterDoubleSlash t

def isPrefixChars : List Char → List Char → Bool
  | [], _ => true
  | _ :: _, [] => false
  | a :: as, b :: bs => a == b && isPrefixChars as bs

def containsChars (needle : List Char) : List Char → Bool
  | [] => needle.isEmpty
  | h :: t => isPrefixChars needle (h :: t) || containsChars needle t

/-- Python substring membership needle in hay; the empty needle is contained
in every string, including the empty one. -/
def strContains (hay needle : String) : Bool :=
  containsChars needle.data hay.data

/-- Python str.lower for the ASCII domains and keywords this code compares. -/
def strToLower (s : String) : String := String.mk (s.data.map Char.toLower)

/-- The netloc component of urllib.parse.urlparse for absolute URLs carrying
a scheme (the shape handled by this pipeline): the text after the first //
up to the next /, ? or #; a URL without // has empty netloc. -/
def netloc (url : String) : String :=
  match afterDoubleSlash url.data with
  | none => ""
  | some rest =>
    String.mk (rest.takeWhile (fun c => !(c == '/') && !(c == '?') && !(c == '#')))

/-- The preferred-domain allow-list of AlibabaWebSailorAgent (source
alibaba_websailor.py lines 66-75). -/
def preferred_domains : List String :=
  ["g1.globo.com", "exame.com", "valor.globo.com", "estadao.com.br",
   "folha.uol.com.br", "canaltech.com.br", "tecmundo.com.br",
   "olhardigital.com.br", "infomoney.com.br", "startse.com",
   "revistapegn.globo.com", "epocanegocios.globo.com", "istoedinheiro.com.br",
   "convergenciadigital.com.br", "mobiletime.com.br", "teletime.com.br",
   "portaltelemedicina.com.br", "saudedigitalbrasil.com.br", "amb.org.br",
   "portal.cfm.org.br", "scielo.br", "ibge.gov.br", "fiocruz.br"]

/-- The blocked-domain deny-list (source line 77). -/
def blocked_domains : List String := ["airbnb.com"]

/-- Embedding of _calculate_content_quality (source alibaba_websailor.py
lines 382-412).  The Python float score only ever holds small integers, so
Int models it exactly: content-length band points, five points per context
keyword contained case-insensitively in the content, twenty for a preferred
netloc, minus thirty for a blocked netloc, clamped to [0, 100]. -/
def _calculate_content_quality (content url : String)
    (context_keywords : List String) : Int :=
  let length := content.length
  let base : Int :=
    if length > 1000 then 40 else if length > 500 then 20
    else if length > 100 then 10 else 0
  let kw : Int := 5 *
    ((context_keywords.filter
      (fun k => strContains (strToLower content) (strToLower k))).length : Int)
  let pref : Int :=
    if preferred_domains.any (fun d => strContains (strToLower (netloc url)) d)
    then 20 else 0
  let blk : Int :=
    if blocked_domains.any (fun d => strContains (strToLower (netloc url)) d)
    then 30 else 0
  min 100 (max 0 (base + kw + pref - blk))

/-- Driver-level effects of one capture_screenshot call, in order. -/
inductive DriverAction where
  | setupDriver
  | navigate (url : String)
  | saveScreenshot (path : String)
  | quitDriver
deriving Repr, DecidableEq

/-- Environment of one capture_screenshot call: the browser and filesystem
behaviour observed during that call. -/
structure ShotEnv where
  setup : Except PyErr Unit
  navRaises : Option PyErr
  pageTitle : String
  currentUrl : String
  metaDesc : Option String
  saveRaises : Option PyErr
  savedOk : Bool
  fileSize : Nat
  timestamp : String

/-- The result dict of capture_screenshot (success shape lines 149-158,
failure shape lines 166-171 of visual_content_capture.py). -/
structure ScreenshotArtifact where
  success : Bool
  url : String
  final_url : Option String := none
  title : Option String := none
  description : Option String := none
  filepath : Option String := none
  filesize : Option Nat := none
  error : Option String := none
  timestamp : String
deriving Repr, DecidableEq

/-- Embedding of VisualContentCapture.capture_screenshot (source lines
104-182).  The class state is just the driver handle (None between calls);
there is no per-URL or per-session memory of earlier captures anywhere in
the class.  The finally block quits and clears the driver on every exit
path.  The returned triple is the artifact dict, the driver field after the
call, and the driver actions performed during the call. -/
def capture_screenshot (driver0 : Option Unit) (env : ShotEnv)
    (url output_path : String) :
    ScreenshotArtifact × Option Unit × List DriverAction :=
  let failArt : String → ScreenshotArtifact := fun msg =>
    { success := false, url := url,
      error := some ("Erro ao capturar screenshot de " ++ url ++ ": " ++ msg),
      timestamp := env.timestamp }
  match driver0, env.setup with
  | none, .error e =>
    -- setup raised before self.driver was assigned: finally sees no driver
    (failArt e.toMessage, none, [.setupDriver])
  | _, _ =>
    let setupActs : List DriverAction :=
      match driver0 with
      | none => [.setupDriver]
      | some _ => []
    match env.navRaises with
    | some e =>
      (failArt e.toMessage, none, setupActs ++ [.navigate url, .quitDriver])
    | none =>
      let page_title := if env.pageTitle = "" then "Sem título" else env.pageTitle
      let meta_description := (env.metaDesc).getD ""
      match env.saveRaises with
      | some e =>
        (failArt e.toMessage, none,
          setupActs ++ [.navigate url, .saveScreenshot output_path, .quitDriver])
      | none =>
        if env.savedOk then
          ({ success := true, url := url, final_url := some env.currentUrl,
             title := some page_title, description := some meta_description,
             filepath := some output_path, filesize := some env.fileSize,
             timestamp := env.timestamp }, none,
            setupActs ++ [.navigate url, .saveScreenshot output_path, .quitDriver])
        else
          (failArt "Screenshot não foi criado ou está vazio", none,
            setupActs ++ [.navigate url, .saveScreenshot output_path, .quitDriver])

/-- Two consecutive capture requests for the same url and output path (same
session directory), threading the only cross-call state, the driver field. -/
def capture_twice (driver0 : Option Unit) (env1 env2 : ShotEnv)
    (url output_path : String) :
    (ScreenshotArtifact × Option Unit × List DriverAction) ×
    (ScreenshotArtifact × Option Unit × List DriverAction) :=
  let r1 := capture_screenshot driver0 env1 url output_path
  let r2 := capture_screenshot r1.2.1 env2 url output_path
  (r1, r2)

/-- Persisted-artifact events of one collector run. -/
inductive PersistEvent where
  | massiveDataJson
  | collectionReport
  | etapa (name : String)
  | erro (name : String)
deriving Repr, DecidableEq

/-- The interleaved web-search payload read by the collector (fields consumed
at massive_data_collector.py lines 204-207 and 244). -/
structure WebResults where
  all_results : List SearchOutcome := []
  successful_searches : Nat := 0
deriving Repr

/-- The TrendFinder payload (fields consumed at lines 226-228 and 246). -/
structure TrendsData where
  success : Bool := false
  error : Option String := none
  trends : List String := []
deriving Repr

/-- The Supadata payload (fields consumed at lines 231-233 and 247). -/
structure SupaData where
  success : Bool := false
  error : Option String := none
  posts : List String := []
  total_results : Nat := 0
deriving Repr

/-- The raw return of social_media_extractor.search_all_platforms: a success
flag, a total and a platforms dict mapping platform name to a dict holding a
results list (social_media_extractor.py lines 62-102). -/
structure SocialRaw where
  success : Bool
  total_results : Nat := 0
  platforms : List (String × List ResultRec) := []
deriving Repr

/-- The social_results dict built by collector phase 4 (lines 150-172). -/
structure SocialData where
  success : Bool
  error : Option String := none
  platforms : List (String × List ResultRec) := []
  total_posts : Nat := 0
  platforms_analyzed : Nat := 0
deriving Repr

/-- One entry of the consolidated extracted_content list (lines 201-235):
a provider result record, a wrapped TrendFinder trend, or a wrapped Supadata
post. -/
inductive ContentItem where
  | record (r : ResultRec)
  | trend (t : String)
  | supa (p : String)
deriving Repr, DecidableEq

/-- Embedding of _count_social_results (lines 285-307) on the dict-shaped
platforms value produced by search_all_platforms. -/
def _count_social_results (social : SocialData) : Nat :=
  (social.platforms.map (fun p => p.2.length)).sum

/-- The statistics block of the collector document. -/
structure MassiveStats where
  total_sources : Nat := 0
  total_content_length : Nat := 0
  collection_time : Nat := 0
  sources_by_type : List (String × Nat) := []
  screenshot_count : Nat := 0
  api_rotations : List (String × Nat) := []
deriving Repr

/-- The massive_data session document (dict literal lines 98-118). -/
structure MassiveData where
  session_id : String
  query : String
  collection_started : String
  web_search_data : WebResults
  social_media_data : SocialData
  trends_data : TrendsData
  supadata_results : SupaData
  visual_content_error : Option String
  extracted_content : List ContentItem
  screenshots : List String
  statistics : MassiveStats
deriving Repr

/-- Return value of execute_massive_collection: the session document on the
normal path, or the error dict built by the except arm (lines 280-283). -/
inductive CollectResult where
  | doc (d : MassiveData)
  | errorDict (error details : String)
deriving Repr

/-- Environment of one execute_massive_collection run.  The collaborators
called by phases 1-4 (search_api_manager, trendfinder_client,
supadata_client, the social extractor's own network clients) and the engine
behind the statistics are outside src/ or behind network calls, so their
outcomes are data here. -/
structure CollectorEnv where
  interleaved_search : Except PyErr WebResults
  trend_available : Bool
  trend_search : Except PyErr TrendsData
  supadata_available : Bool
  supadata_search : Except PyErr SupaData
  social_search : Except PyErr SocialRaw
  select_top_urls_if_defined : WebResults → List String
  capture_screenshots_result : Except PyErr (List String × Nat)
  strLen : ContentItem → Nat
  collection_started : String
  collection_time : Nat
  json_write : Except PyErr Unit
  report_write : Except PyErr Unit
  provider_stats : List (String × Nat)

/-- The except arm of execute_massive_collection (lines 280-283): salvar_erro
is called and the error dict is returned.  Modelled from the spec: the
persistence helper salvar_erro of services.auto_save_manager (not under src/)
persists an emergency error document for the session and does not raise -
spec sections 4.7 and 7 (the collector always produces a persisted document,
even under total failure, as an emergency minimal document with an error
marker). -/
def collection_error_return (e : PyErr) : CollectResult × List PersistEvent :=
  (.errorDict "Falha na coleta massiva de dados" e.toMessage,
    [.erro "massive_data_collection"])

/-- Embedding of MassiveDataCollector.execute_massive_collection (source
massive_data_collector.py lines 86-283).  Phases 1-3 and 5-7 run inside one
try whose except arm is collection_error_return; phase 4 and the screenshot
call of phase 6 carry their own inner try.  Phase 5 reads the attribute
select_top_urls on visual_content_capture, which class VisualContentCapture
does not define, so on the source as given the AttributeError always reaches
the outer except; the continuation after that lookup is embedded under the
statically false attribute test. -/
def execute_massive_collection (env : CollectorEnv) (query session_id : String) :
    CollectResult × List PersistEvent :=
  match env.interleaved_search with
  | .error e => collection_error_return e
  | .ok web_results =>
  match (if env.trend_available then env.trend_search
         else .ok { success := false, error := some "TrendFinder não configurado" }) with
  | .error e => collection_error_return e
  | .ok trends_data =>
  match (if env.supadata_available then env.supadata_search
         else .ok { success := false, error := some "Supadata não configurado" }) with
  | .error e => collection_error_return e
  | .ok supadata_results =>
  let social_results : SocialData :=
    match env.social_search with
    | .ok raw =>
      if raw.success then
        { success := true, platforms := raw.platforms,
          total_posts := raw.total_results,
          platforms_analyzed := raw.platforms.length }
      else
        { success := false, error := some "Falha na extração de redes sociais" }
    | .error e => { success := false, error := some e.toMessage }
  if visual_content_capture_attrs.contains "select_top_urls" then
    let selected_urls := env.select_top_urls_if_defined web_results
    let shot : Option String × List String × Nat :=
      if selected_urls.isEmpty then
        (some "Nenhuma URL disponível", [], 0)
      else if visual_content_capture_attrs.contains "capture_screenshots" then
        match env.capture_screenshots_result with
        | .ok r => (none, r.1, r.2)
        | .error e => (some e.toMessage, [], 0)
      else (some (PyErr.attributeError "capture_screenshots").toMessage, [], 0)
    let webContent : List ContentItem :=
      ((web_results.all_results.filter
        (fun o => o.success && !o.results.isEmpty)).flatMap
          (fun o => o.results)).map ContentItem.record
    let socialContent : List ContentItem :=
      (social_results.platforms.flatMap (fun p => p.2)).map ContentItem.record
    let trendContent : List ContentItem :=
      if trends_data.success then trends_data.trends.map ContentItem.trend else []
    let supaContent : List ContentItem :=
      if supadata_results.success then supadata_results.posts.map ContentItem.supa
      else []
    let all_extracted_content :=
      webContent ++ socialContent ++ trendContent ++ supaContent
    let stats : MassiveStats :=
      { total_sources := all_extracted_content.length
        total_content_length := (all_extracted_content.map env.strLen).sum
        collection_time := env.collection_time
        sources_by_type :=
          [("web_search_intercalado", web_results.successful_searches),
           ("social_media_fallback", _count_social_results social_results),
           ("trendfinder_mcp", trends_data.trends.length),
           ("supadata_mcp", supadata_results.total_results),
           ("screenshots", shot.2.2)]
        screenshot_count := shot.2.2
        api_rotations := env.provider_stats }
    let massive_data : MassiveData :=
      { session_id := session_id, query := query
        collection_started := env.collection_started
        web_search_data := web_results
        social_media_data := social_results
        trends_data := trends_data
        supadata_results := supadata_results
        visual_content_error := shot.1
        extracted_content := all_extracted_content
        screenshots := shot.2.1
        statistics := stats }
    match env.json_write with
    | .error e => collection_error_return e
    | .ok _ =>
      match env.report_write with
      | .error e => collection_error_return e
      | .ok _ =>
        (.doc massive_data,
          [.massiveDataJson, .collectionReport, .etapa "massive_data_collected"])
  else collection_error_return (.attributeError "select_top_urls")

/-- A benign orchestrator environment used to instantiate closed statements:
every network call is offline unless overridden. -/
def defaultEnv : OrchestratorEnv :=
  { getenv := fun _ => none
    findallLinks := fun _ => []
    findallUrls := fun _ => []
    websailor_if_imported := { success := false }
    firecrawl_http := .raises (.other "offline")
    jina_session_raises := none
    jina_ev1 := .raises (.other "offline")
    jina_ev2 := .raises (.other "offline")
    jina_ev3 := .raises (.other "offline")
    google_http := .raises (.other "offline")
    exa_http := .raises (.other "offline")
    serper_http := .raises (.other "offline")
    youtube_http := .raises (.other "offline")
    captureAsync := fun _ _ => none
    search_started := "t0"
    search_duration := 0
    engine_analysis := .ok "insights" }

/-- Concrete credential state for the duplicate-URL run: Google and Serper
each enabled with one key. -/
def stC4 : RSOState := RSOState.init [("GOOGLE", ["gk"]), ("SERPER", ["sk"])]

/-- Concrete environment for the duplicate-URL run: Google and Serper both
answer 200 with one organic result pointing at the same url. -/
def envC4 : OrchestratorEnv :=
  { defaultEnv with
    getenv := fun k => if k = "GOOGLE_CSE_ID" then some "cse" else none
    google_http := .resp 200 [{ title := some "A", link := some "http://a.com" }] ""
    serper_http := .resp 200 [{ title := some "A2", link := some "http://a.com" }] "" }

/-- A browser environment in which one capture fully succeeds. -/
def shotEnvOk : ShotEnv :=
  { setup := .ok (), navRaises := none, pageTitle := "T",
    currentUrl := "http://a.com/", metaDesc := none, saveRaises := none,
    savedOk := true, fileSize := 100, timestamp := "t1" }

/-- A concrete collector environment: no optional collaborator configured,
storage writable. -/
def collectorEnvW : CollectorEnv :=
  { interleaved_search := .ok {}
    trend_available := false
    trend_search := .ok {}
    supadata_available := false
    supadata_search := .ok {}
    social_search := .error (.other "offline")
    select_top_urls_if_defined := fun _ => []
    capture_screenshots_result := .error (.other "offline")
    strLen := fun _ => 0
    collection_started := "t0"
    collection_time := 0
    json_write := .ok ()
    report_write := .ok ()
    provider_stats := [] }


theorem assocGet_assocSet_self {α : Type} (m : List (String × α)) (k : String)
    (v : α) : assocGet (assocSet m k v) k = some v := by
  induction m with
  | nil => simp [assocSet, assocGet]
  | cons a t ih =>
    by_cases ha : a.1 = k
    · have hc : (a :: t).any (fun p => p.1 = k) = true := by
        simp [List.any_cons, ha]
      simp [assocSet, hc, assocGet, ha]
    · by_cases ht : t.any (fun p => p.1 = k)
      · have hc : (a :: t).any (fun p => p.1 = k) = true := by
          simp [List.any_cons, ht]
        have : assocSet (a :: t) k v = (if a.1 = k then (k, v) else a) :: (t.map (fun p => if p.1 = k then (k, v) else p)) := by
          simp [assocSet, hc]
        rw [this, if_neg ha]
        have htset : assocSet t k v = t.map (fun p => if p.1 = k then (k, v) else p) := by
          simp [assocSet, ht]
        rw [assocGet, if_neg ha, ← htset]
        exact ih
      · have ht2 : t.any (fun p => p.1 = k) = false := Bool.eq_false_iff.mpr ht
        have hc : (a :: t).any (fun p => p.1 = k) = false := by
          simp only [List.any_cons, Bool.or_eq_false_iff]
          exact ⟨decide_eq_false ha, ht2⟩
        have : assocSet (a :: t) k v = a :: (t ++ [(k, v)]) := by
          simp [assocSet, hc]
        rw [this, assocGet, if_neg ha]
        have htset : assocSet t k v = t ++ [(k, v)] := by
          simp only [assocSet]
          rw [if_neg ht]
        rw [← htset]
        exact ih

theorem get_next_api_key_none (st : RSOState) (p : String)
    (h : assocGet st.api_keys p = none ∨ assocGet st.api_keys p = some []) :
    get_next_api_key st p = (none, st) := by
  rcases h with h | h <;> simp [get_next_api_key, h]

theorem get_next_api_key_keys_unchanged (st : RSOState) (p : String) :
    (get_next_api_key st p).2.api_keys = st.api_keys := by
  unfold get_next_api_key
  cases h : assocGet st.api_keys p with
  | none => rfl
  | some keys =>
    by_cases hk : keys.isEmpty <;> simp [hk]

theorem get_next_api_key_some (st : RSOState) (p : String) (keys : List String)
    (hk : assocGet st.api_keys p = some keys) (hne : keys ≠ [])
    (i : Nat) (hi : (assocGet st.key_indices p).getD 0 = i) (hlt : i < keys.length) :
    (get_next_api_key st p).1 = some (keys.getD i "") ∧
    assocGet (get_next_api_key st p).2.key_indices p = some ((i + 1) % keys.length) := by
  have hkemp : keys.isEmpty = false := by
    cases keys with
    | nil => exact absurd rfl hne
    | cons a t => rfl
  constructor
  · simp [get_next_api_key, hk, hkemp, hi]
  · simp only [get_next_api_key, hk, hkemp, Bool.false_eq_true, if_false, hi]
    exact assocGet_assocSet_self _ _ _

theorem rotate_calls_length (p : String) :
    ∀ (n : Nat) (st : RSOState), (rotate_calls p n st).1.length = n := by
  intro n
  induction n with
  | zero => intro st; rfl
  | succ n ih => intro st; simp [rotate_calls, ih]

theorem rotate_calls_get (p : String) (keys : List String) (hne : keys ≠ []) :
    ∀ (n : Nat) (st : RSOState) (i j : Nat),
      assocGet st.api_keys p = some keys →
      (assocGet st.key_indices p).getD 0 = i →
      i < keys.length →
      j < n →
      (rotate_calls p n st).1.get? j =
        some (some (keys.getD ((i + j) % keys.length) "")) := by
  intro n
  induction n with
  | zero => intro st i j _ _ _ hj; exact absurd hj (Nat.not_lt_zero j)
  | succ n ih =>
    intro st i j hk hi hlt hj
    have hstep := get_next_api_key_some st p keys hk hne i hi hlt
    have hkeys2 : (get_next_api_key st p).2.api_keys = st.api_keys :=
      get_next_api_key_keys_unchanged st p
    cases j with
    | zero =>
      have : (i + 0) % keys.length = i := by
        simp [Nat.mod_eq_of_lt hlt]
      rw [this]
      simp only [rotate_calls, List.get?]
      rw [hstep.1]
    | succ j =>
      have hk2 : assocGet (get_next_api_key st p).2.api_keys p = some keys := by
        rw [hkeys2]; exact hk
      have hi2 : (assocGet (get_next_api_key st p).2.key_indices p).getD 0 =
          (i + 1) % keys.length := by
        rw [hstep.2]; rfl
      have hpos : 0 < keys.length := by
        cases keys with
        | nil => exact absurd rfl hne
        | cons a t => exact Nat.succ_pos _
      have hlt2 : (i + 1) % keys.length < keys.length := Nat.mod_lt _ hpos
      have hrec := ih (get_next_api_key st p).2 ((i + 1) % keys.length) j hk2 hi2 hlt2
        (Nat.lt_of_succ_lt_succ hj)
      simp only [rotate_calls, List.get?]
      rw [hrec]
      have : ((i + 1) % keys.length + j) % keys.length = (i + (j + 1)) % keys.length := by
        rw [Nat.mod_add_mod]
        have : i + 1 + j = i + (j + 1) := by omega
        rw [this]
      rw [this]

theorem rotate_calls_window (st : RSOState) (p : String) (keys : List String) (i : Nat)
    (hk : assocGet st.api_keys p = some keys) (hne : keys ≠ [])
    (hi : (assocGet st.key_indices p).getD 0 = i) (hlt : i < keys.length) :
    (rotate_calls p keys.length st).1 = (keys.rotate i).map some := by
  apply List.ext_get?_iff.mpr
  intro j
  by_cases hj : j < keys.length
  · rw [rotate_calls_get p keys hne keys.length st i j hk hi hlt hj]
    rw [List.get?_map, List.get?_rotate hj]
    have hpos : 0 < keys.length := List.length_pos.mpr hne
    have hm : (j + i) % keys.length < keys.length := Nat.mod_lt _ hpos
    rw [List.get?_eq_getElem?, List.getElem?_eq_getElem hm]
    have hidx : (i + j) % keys.length = (j + i) % keys.length := by
      rw [Nat.add_comm]
    rw [hidx, List.getD_eq_getElem (l := keys) (d := "") hm]
    rfl
  · have e1 : (rotate_calls p keys.length st).1.get? j = none :=
      List.get?_eq_none.mpr (by rw [rotate_calls_length]; exact Nat.le_of_not_lt hj)
    have e2 : ((keys.rotate i).map some).get? j = none :=
      List.get?_eq_none.mpr
        (by rw [List.length_map, List.length_rotate]; exact Nat.le_of_not_lt hj)
    rw [e1, e2]

theorem count_map_some_aux (l : List String) (c : String) :
    (l.map some).count (some c) = l.count c := by
  induction l with
  | nil => rfl
  | cons a t ih =>
    by_cases h : a = c
    · simp [List.map_cons, List.count_cons, ih, h]
    · simp [List.map_cons, List.count_cons, ih, h]

theorem rotate_calls_period_count (st : RSOState) (p : String) (keys : List String)
    (i : Nat) (hk : assocGet st.api_keys p = some keys) (hne : keys ≠ [])
    (hi : (assocGet st.key_indices p).getD 0 = i) (hlt : i < keys.length) (c : String) :
    ((rotate_calls p keys.length st).1.count (some c)) = keys.count c := by
  rw [rotate_calls_window st p keys i hk hne hi hlt, count_map_some_aux]
  rw [List.count_eq_countP, List.count_eq_countP]
  exact (List.rotate_perm keys i).countP_eq _

/-- C3: for a provider whose pool holds k > 0 credentials, get_next_api_key
returns the credential at the current cursor and advances the cursor exactly
once, wrapping modulo k, so the cursor stays in [0, k); over n consecutive
calls the j-th returned credential is keys[(i + j) % k], hence the sequence
is periodic with period k and each credential of the pool appears exactly as
often per period as it occurs in the pool (exactly once when the pool has no
duplicates); a provider with no credentials yields none and an unchanged
state. -/
theorem get_next_api_key_round_robin
    (st : RSOState) (p : String) (keys : List String) (i : Nat)
    (hk : assocGet st.api_keys p = some keys) (hne : keys ≠ [])
    (hi : (assocGet st.key_indices p).getD 0 = i) (hlt : i < keys.length) :
    (get_next_api_key st p).1 = some (keys.getD i "")
    ∧ assocGet (get_next_api_key st p).2.key_indices p = some ((i + 1) % keys.length)
    ∧ (i + 1) % keys.length < keys.length
    ∧ (∀ n j, j < n →
        (rotate_calls p n st).1.get? j =
          some (some (keys.getD ((i + j) % keys.length) "")))
    ∧ (∀ n j, j + keys.length < n →
        (rotate_calls p n st).1.get? (j + keys.length) =
          (rotate_calls p n st).1.get? j)
    ∧ (rotate_calls p keys.length st).1 = (keys.rotate i).map some
    ∧ (∀ c, ((rotate_calls p keys.length st).1.count (some c)) = keys.count c)
    ∧ (keys.Nodup → ∀ c ∈ keys, ((rotate_calls p keys.length st).1.count (some c)) = 1)
    ∧ (∀ (st0 : RSOState) (q : String),
        assocGet st0.api_keys q = none ∨ assocGet st0.api_keys q = some [] →
        get_next_api_key st0 q = (none, st0)) := by
  have hpos : 0 < keys.length := List.length_pos.mpr hne
  have hbase := get_next_api_key_some st p keys hk hne i hi hlt
  refine ⟨hbase.1, hbase.2, Nat.mod_lt _ hpos, ?_, ?_, ?_, ?_, ?_, ?_⟩
  · intro n j hj
    exact rotate_calls_get p keys hne n st i j hk hi hlt hj
  · intro n j hj
    have h1 : j + keys.length < n := hj
    have h2 : j < n := by omega
    rw [rotate_calls_get p keys hne n st i (j + keys.length) hk hi hlt h1,
      rotate_calls_get p keys hne n st i j hk hi hlt h2]
    have : (i + (j + keys.length)) % keys.length = (i + j) % keys.length := by
      rw [← Nat.add_assoc, Nat.add_mod_right]
    rw [this]
  · exact rotate_calls_window st p keys i hk hne hi hlt
  · intro c
    exact rotate_calls_period_count st p keys i hk hne hi hlt c
  · intro hnd c hc
    rw [rotate_calls_period_count st p keys i hk hne hi hlt c]
    rw [List.count_eq_one_of_mem hnd hc]
  · intro st0 q h
    exact get_next_api_key_none st0 q h

/-- Closed witness for C3 at a concrete three-key pool: every hypothesis of
the round-robin theorem holds at this input and the conclusion follows by
applying the theorem itself. -/
theorem get_next_api_key_round_robin_witness :
    (assocGet (RSOState.init [("GOOGLE", ["g1", "g2", "g3"])]).api_keys "GOOGLE" =
        some ["g1", "g2", "g3"]
      ∧ (["g1", "g2", "g3"] : List String) ≠ []
      ∧ (assocGet (RSOState.init [("GOOGLE", ["g1", "g2", "g3"])]).key_indices
          "GOOGLE").getD 0 = 0
      ∧ 0 < (["g1", "g2", "g3"] : List String).length)
    ∧ (get_next_api_key (RSOState.init [("GOOGLE", ["g1", "g2", "g3"])]) "GOOGLE").1 =
        some "g1" :=
  ⟨⟨by decide, by decide, by decide, by decide⟩,
    (get_next_api_key_round_robin (RSOState.init [("GOOGLE", ["g1", "g2", "g3"])])
      "GOOGLE" ["g1", "g2", "g3"] 0 (by decide) (by decide) (by decide) (by decide)).1⟩

theorem extract_always_nameerror (fl : String → List (String × String))
    (fu : String → List String) (content source : String) :
    _extract_search_results_from_content fl fu content source =
      .error (.nameError "re") := by
  rfl

theorem jina_iteration_id (fl : String → List (String × String))
    (fu : String → List String) (acc : List ResultRec) (ev : HttpOutcome String) :
    jina_iteration fl fu acc ev = acc := by
  cases ev with
  | raises e => rfl
  | resp status content et =>
    by_cases hs : status = 200
    · simp only [jina_iteration, hs, if_pos, extract_always_nameerror]
    · simp only [jina_iteration, if_neg hs]

theorem firecrawl_never_success (st : RSOState) (http : HttpOutcome String)
    (fl : String → List (String × String)) (fu : String → List String) :
    (_search_firecrawl st http fl fu).1.success = false := by
  simp only [_search_firecrawl]
  cases hkey : (get_next_api_key st "FIRECRAWL").1 with
  | none => rfl
  | some k =>
    by_cases hk : k = ""
    · simp [hk]
    · simp only [if_neg hk]
      cases http with
      | raises e => rfl
      | resp status content et =>
        by_cases hs : status = 200
        · simp [hs, extract_always_nameerror]
        · simp only [if_neg hs]

theorem jina_outcome (st : RSOState) (sr : Option PyErr)
    (e1 e2 e3 : HttpOutcome String) (fl : String → List (String × String))
    (fu : String → List String) :
    (_search_jina st sr e1 e2 e3 fl fu).1.success = false ∨
    ((_search_jina st sr e1 e2 e3 fl fu).1.provider = some "JINA" ∧
     (_search_jina st sr e1 e2 e3 fl fu).1.results = []) := by
  simp only [_search_jina]
  cases hkey : (get_next_api_key st "JINA").1 with
  | none => left; rfl
  | some k =>
    by_cases hk : k = ""
    · left; simp [hk]
    · simp only [if_neg hk]
      cases sr with
      | some e => left; rfl
      | none =>
        right
        simp [List.foldl_cons, List.foldl_nil, jina_iteration_id]

theorem google_outcome (st : RSOState) (ge : String → Option String)
    (http : HttpOutcome (List RawWebItem)) :
    (_search_google st ge http).1.success = false ∨
    (_search_google st ge http).1.provider = some "GOOGLE" := by
  simp only [_search_google]
  by_cases hc : (!truthyStr (get_next_api_key st "GOOGLE").1 ||
      !truthyStr (ge "GOOGLE_CSE_ID")) = true
  · left; simp [hc]
  · simp only [if_neg hc]
    cases http with
    | raises e => left; rfl
    | resp status items et =>
      by_cases hs : status = 200
      · right; simp [hs]
      · left; simp only [if_neg hs]

theorem exa_outcome (st : RSOState) (http : HttpOutcome (List RawWebItem)) :
    (_search_exa st http).1.success = false ∨
    (_search_exa st http).1.provider = some "EXA" := by
  simp only [_search_exa]
  cases hkey : (get_next_api_key st "EXA").1 with
  | none => left; rfl
  | some k =>
    by_cases hk : k = ""
    · left; simp [hk]
    · simp only [if_neg hk]
      cases http with
      | raises e => left; rfl
      | resp status items et =>
        by_cases hs : status = 200
        · right; simp [hs]
        · left; simp only [if_neg hs]

theorem serper_outcome (st : RSOState) (http : HttpOutcome (List RawWebItem)) :
    (_search_serper st http).1.success = false ∨
    (_search_serper st http).1.provider = some "SERPER" := by
  simp only [_search_serper]
  cases hkey : (get_next_api_key st "SERPER").1 with
  | none => left; rfl
  | some k =>
    by_cases hk : k = ""
    · left; simp [hk]
    · simp only [if_neg hk]
      cases http with
      | raises e => left; rfl
      | resp status items et =>
        by_cases hs : status = 200
        · right; simp [hs]
        · left; simp only [if_neg hs]

theorem websailor_fail_eq (env : OrchestratorEnv) :
    _search_alibaba_websailor env =
      { success := false, provider := none, platform := none, results := [],
        error := some "Alibaba WebSailor não disponível" } := by
  rfl

theorem foldl_const {α β : Type} (f : β → α → β) (hf : ∀ b a, f b a = b) :
    ∀ (l : List α) (b : β), l.foldl f b = b := by
  intro l
  induction l with
  | nil => intro b; rfl
  | cons a t ih =>
    intro b
    rw [List.foldl_cons, hf]
    exact ih b

theorem capture_viral_nil (ca : String → String → Option String)
    (viral : List ResultRec) (sid : String) :
    _capture_viral_screenshots ca viral sid = [] := by
  have hattr : visual_content_capture_attrs.contains "capture_screenshot_async"
      = false := by decide
  unfold _capture_viral_screenshots
  apply foldl_const
  intro b item
  by_cases hu : truthyStr item.url = true
  · rw [if_pos hu, if_neg (by decide)]
  · rw [if_neg hu]

theorem mem_appendIf (provider : String)
    (f : RSOState → SearchOutcome × RSOState)
    (acc : List SearchOutcome × RSOState) (o : SearchOutcome)
    (h : o ∈ (appendIf provider f acc).1) :
    o ∈ acc.1 ∨ ∃ s, o = (f s).1 := by
  unfold appendIf at h
  split at h
  · rcases List.mem_append.mp h with h1 | h2
    · exact Or.inl h1
    · exact Or.inr ⟨acc.2, by simpa using h2⟩
  · exact Or.inl h

theorem merge_web_fold_mem_providers (outs : List SearchOutcome) :
    ∀ (acc : List ResultRec × List String) (x : String),
      x ∈ (outs.foldl merge_web acc).2 →
      x ∈ acc.2 ∨ ∃ o ∈ outs, o.success = true ∧ o.provider.getD "unknown" = x := by
  induction outs with
  | nil => intro acc x hx; exact Or.inl hx
  | cons o t ih =>
    intro acc x hx
    rcases ih (merge_web acc o) x hx with h | ⟨o2, ho2, h2⟩
    · by_cases hs : (o.success && !o.results.isEmpty) = true
      · rw [merge_web, if_pos hs] at h
        have hs2 : o.success = true ∧ (!o.results.isEmpty) = true := by
          simpa using hs
        rcases List.mem_append.mp h with h1 | h1
        · exact Or.inl h1
        · exact Or.inr ⟨o, List.mem_cons_self o t, hs2.1,
            (List.mem_singleton.mp h1).symm⟩
      · rw [merge_web, if_neg hs] at h
        exact Or.inl h
    · exact Or.inr ⟨o2, List.mem_cons_of_mem o ho2, h2⟩

theorem merge_web_fold_results (outs : List SearchOutcome) :
    ∀ acc : List ResultRec × List String,
      (outs.foldl merge_web acc).1 =
        acc.1 ++ (outs.filter (fun o => o.success && !o.results.isEmpty)).flatMap
          (fun o => o.results) := by
  induction outs with
  | nil => intro acc; simp
  | cons o t ih =>
    intro acc
    rw [List.foldl_cons, ih]
    by_cases hs : (o.success && !o.results.isEmpty) = true
    · rw [merge_web, if_pos hs]
      simp [List.filter_cons, hs, List.append_assoc]
    · have hs2 : (o.success && !o.results.isEmpty) = false :=
        Bool.eq_false_iff.mpr hs
      rw [merge_web, if_neg hs]
      simp [List.filter_cons, hs2]

theorem phase2_outcomes_classified (st : RSOState) (env : OrchestratorEnv)
    (o : SearchOutcome) (ho : o ∈ (phase2_run st env).1) :
    (∃ s, o = (_search_firecrawl s env.firecrawl_http env.findallLinks
        env.findallUrls).1) ∨
    (∃ s, o = (_search_jina s env.jina_session_raises env.jina_ev1 env.jina_ev2
        env.jina_ev3 env.findallLinks env.findallUrls).1) ∨
    (∃ s, o = (_search_google s env.getenv env.google_http).1) ∨
    (∃ s, o = (_search_exa s env.exa_http).1) ∨
    (∃ s, o = (_search_serper s env.serper_http).1) := by
  unfold phase2_run at ho
  rcases mem_appendIf _ _ _ _ ho with h4 | hS
  · rcases mem_appendIf _ _ _ _ h4 with h3 | hE
    · rcases mem_appendIf _ _ _ _ h3 with h2 | hG
      · rcases mem_appendIf _ _ _ _ h2 with h1 | hJ
        · rcases mem_appendIf _ _ _ _ h1 with h0 | hF
          · simp at h0
          · exact Or.inl hF
        · exact Or.inr (Or.inl hJ)
      · exact Or.inr (Or.inr (Or.inl hG))
    · exact Or.inr (Or.inr (Or.inr (Or.inl hE)))
  · exact Or.inr (Or.inr (Or.inr (Or.inr hS)))

theorem load_all_api_keys_empty (getenv : String → Option String) (fuel : Nat)
    (hnone : ∀ v, getenv v = none) :
    _load_all_api_keys getenv fuel = [] := by
  have hnum : ∀ p c, collect_numbered_keys getenv p fuel c = [] := by
    intro p c
    cases fuel with
    | zero => rfl
    | succ n => simp [collect_numbered_keys, hnone]
  unfold _load_all_api_keys
  apply foldl_const
  intro b p
  simp [hnone, hnum]

theorem phase2_run_no_keys (st : RSOState) (env : OrchestratorEnv)
    (h : st.api_keys = []) :
    phase2_run st env = ([], st) := by
  unfold phase2_run appendIf
  simp [h, assocGet]

theorem phase2_providers_mem (st : RSOState) (env : OrchestratorEnv) (x : String)
    (hx : x ∈ ((phase2_run st env).1.foldl merge_web ([], [])).2) :
    x = "JINA" ∨ x = "GOOGLE" ∨ x = "EXA" ∨ x = "SERPER" := by
  rcases merge_web_fold_mem_providers _ _ _ hx with h | ⟨o, ho, hsucc, hprov⟩
  · simp at h
  · rcases phase2_outcomes_classified st env o ho with
      ⟨s, rfl⟩ | ⟨s, rfl⟩ | ⟨s, rfl⟩ | ⟨s, rfl⟩ | ⟨s, rfl⟩
    · rw [firecrawl_never_success] at hsucc
      exact absurd hsucc (by simp)
    · rcases jina_outcome s env.jina_session_raises env.jina_ev1 env.jina_ev2
        env.jina_ev3 env.findallLinks env.findallUrls with h | h
      · rw [hsucc] at h; exact absurd h (by simp)
      · rw [h.1] at hprov; exact Or.inl hprov.symm
    · rcases google_outcome s env.getenv env.google_http with h | h
      · rw [hsucc] at h; exact absurd h (by simp)
      · rw [h] at hprov; exact Or.inr (Or.inl hprov.symm)
    · rcases exa_outcome s env.exa_http with h | h
      · rw [hsucc] at h; exact absurd h (by simp)
      · rw [h] at hprov; exact Or.inr (Or.inr (Or.inl hprov.symm))
    · rcases serper_outcome s env.serper_http with h | h
      · rw [hsucc] at h; exact absurd h (by simp)
      · rw [h] at hprov; exact Or.inr (Or.inr (Or.inr hprov.symm))

/-- C7: virality classification is monotone in each engagement metric:
increasing one of likes, comments or shares while holding the other two fixed
never turns a record classified viral (likes at least 1000, or comments at
least 100, or shares at least 50) into one classified not viral, and the
increased record still belongs to every _identify_viral_content output that
contains it. -/
theorem identify_viral_content_monotone (item item2 : ResultRec)
    (hv : is_viral_item item = true)
    (hmono :
      (item.likes.getD 0 ≤ item2.likes.getD 0 ∧
        item2.comments.getD 0 = item.comments.getD 0 ∧
        item2.shares.getD 0 = item.shares.getD 0) ∨
      (item.comments.getD 0 ≤ item2.comments.getD 0 ∧
        item2.likes.getD 0 = item.likes.getD 0 ∧
        item2.shares.getD 0 = item.shares.getD 0) ∨
      (item.shares.getD 0 ≤ item2.shares.getD 0 ∧
        item2.likes.getD 0 = item.likes.getD 0 ∧
        item2.comments.getD 0 = item.comments.getD 0)) :
    is_viral_item item2 = true ∧
    ∀ l : List ResultRec, item2 ∈ l → item2 ∈ _identify_viral_content l := by
  have h2 : is_viral_item item2 = true := by
    simp only [is_viral_item, viral_threshold_likes, viral_threshold_comments,
      viral_threshold_shares, decide_eq_true_eq] at hv ⊢
    rcases hmono with ⟨h1, hb, hc⟩ | ⟨h1, hb, hc⟩ | ⟨h1, hb, hc⟩ <;>
      rcases hv with hv | hv | hv <;> omega
  refine ⟨h2, fun l hl => ?_⟩
  unfold _identify_viral_content
  exact List.mem_filter.mpr ⟨hl, h2⟩

/-- Closed witness for C7: a record viral through its likes stays viral after
its likes increase from 1500 to 2000 with comments and shares fixed. -/
theorem identify_viral_content_monotone_witness :
    is_viral_item { likes := some 1500, comments := some 10, shares := some 0 } = true
    ∧ is_viral_item { likes := some 2000, comments := some 10, shares := some 0 } = true :=
  ⟨by decide,
    (identify_viral_content_monotone
      { likes := some 1500, comments := some 10, shares := some 0 }
      { likes := some 2000, comments := some 10, shares := some 0 }
      (by decide) (Or.inl (by decide))).1⟩

/-- C9: real_search_orchestrator.py never imports re, so every call of
_extract_search_results_from_content raises NameError; consequently
_search_firecrawl never returns a successful outcome (every 200 path reaches
the NameError, converted by the enclosing except into the failure shape), and
every successful _search_jina outcome carries an empty result list. -/
theorem no_re_import_consequences :
    (∀ (fl : String → List (String × String)) (fu : String → List String)
        (content source : String),
      _extract_search_results_from_content fl fu content source =
        .error (.nameError "re"))
    ∧ (∀ (st : RSOState) (http : HttpOutcome String)
        (fl : String → List (String × String)) (fu : String → List String),
        (_search_firecrawl st http fl fu).1.success = false)
    ∧ (∀ (st : RSOState) (sr : Option PyErr) (e1 e2 e3 : HttpOutcome String)
        (fl : String → List (String × String)) (fu : String → List String),
        (_search_jina st sr e1 e2 e3 fl fu).1.success = true →
        (_search_jina st sr e1 e2 e3 fl fu).1.results = []) := by
  refine ⟨extract_always_nameerror, firecrawl_never_success, ?_⟩
  intro st sr e1 e2 e3 fl fu hs
  rcases jina_outcome st sr e1 e2 e3 fl fu with h | h
  · rw [hs] at h; exact absurd h (by simp)
  · exact h.2

/-- Closed witness for C9: with one configured Jina key the adapter returns a
successful outcome whose result list is empty. -/
theorem no_re_import_consequences_witness :
    (_search_jina (RSOState.init [("JINA", ["jk"])]) none (.raises (.other "x"))
      (.raises (.other "x")) (.raises (.other "x")) (fun _ => []) (fun _ => [])).1.success
      = true
    ∧ (_search_jina (RSOState.init [("JINA", ["jk"])]) none (.raises (.other "x"))
      (.raises (.other "x")) (.raises (.other "x")) (fun _ => []) (fun _ => [])).1.results
      = [] :=
  ⟨by decide,
    no_re_import_consequences.2.2 (RSOState.init [("JINA", ["jk"])]) none
      (.raises (.other "x")) (.raises (.other "x")) (.raises (.other "x"))
      (fun _ => []) (fun _ => []) (by decide)⟩

/-- C10: _capture_viral_screenshots always returns the empty list - for each
viral item with a URL the attribute lookup capture_screenshot_async raises
AttributeError, caught per item - and so the orchestrator document's
screenshots_captured list is empty on every run. -/
theorem capture_viral_screenshots_always_empty :
    (∀ (ca : String → String → Option String) (viral : List ResultRec)
        (sid : String), _capture_viral_screenshots ca viral sid = [])
    ∧ (∀ (st : RSOState) (env : OrchestratorEnv) (q sid : String),
        (execute_massive_real_search st env q sid).1.screenshots_captured = []) := by
  refine ⟨capture_viral_nil, ?_⟩
  intro st env q sid
  simp only [execute_massive_real_search]
  split
  · rfl
  · exact capture_viral_nil _ _ _

/-- C8: the statement from services.alibaba_websailor import alibaba_websailor
names a binding the module does not define, so _search_alibaba_websailor
always returns the caught-ImportError failure dict; hence phase 1 never
extends web_results (the corpus equals the phase-2 fold from empty
accumulators) and ALIBABA_WEBSAILOR never appears in providers_used. -/
theorem websailor_phase1_always_fails :
    (∀ env : OrchestratorEnv,
      _search_alibaba_websailor env =
        { success := false, provider := none, platform := none, results := [],
          error := some "Alibaba WebSailor não disponível" })
    ∧ (∀ (st : RSOState) (env : OrchestratorEnv) (q sid : String),
        (execute_massive_real_search st env q sid).1.web_results =
          ((phase2_run st env).1.foldl merge_web ([], [])).1)
    ∧ (∀ (st : RSOState) (env : OrchestratorEnv) (q sid : String),
        (execute_massive_real_search st env q sid).1.providers_used.all
          (fun x => x != "ALIBABA_WEBSAILOR") = true) := by
  have hws : ∀ env : OrchestratorEnv,
      (_search_alibaba_websailor env).success = false := by
    intro env; rw [websailor_fail_eq]
  refine ⟨websailor_fail_eq, ?_, ?_⟩
  · intro st env q sid
    simp only [execute_massive_real_search, orchestrator_merged, hws,
      Bool.false_eq_true, if_false]
  · intro st env q sid
    rw [List.all_eq_true]
    intro x hx
    have hx2 : x ∈ (execute_massive_real_search st env q sid).1.providers_used := hx
    simp only [execute_massive_real_search, orchestrator_merged, hws,
      Bool.false_eq_true, if_false] at hx2
    rcases phase2_providers_mem st env x hx2 with rfl | rfl | rfl | rfl <;> decide

theorem dedup_self_append_length {α : Type} [DecidableEq α] (u : List α) :
    (u ++ u).dedup.length = u.dedup.length := by
  rw [← List.card_toFinset, ← List.card_toFinset, List.toFinset_append,
    Finset.union_self]

/-- C1 counterexample: at a concrete zero-provider input the orchestrator
returns the skeleton document with empty result sets, but the returned dict
carries no success field and no error reason at all - the claimed
success:false with a descriptive reason is absent from its key set. -/
theorem zero_providers_counterexample :
    (execute_massive_real_search (RSOState.init []) defaultEnv "q" "s1").1.web_results
      = []
    ∧ search_results_keys.contains "success" = false
    ∧ search_results_keys.contains "error" = false := by
  refine ⟨?_, by decide, by decide⟩
  rfl

/-- C1 amended: with no API key configured for any provider the pool map
loads empty and the orchestrator returns, without raising (the embedding is
total: every phase catches internally), a document whose result sets,
providers_used, viral list and screenshot list are all empty; however, the
document carries no success field and no error reason - no such keys are
ever written. -/
theorem zero_providers_empty_document
    (getenv : String → Option String) (fuel : Nat) (st : RSOState)
    (env : OrchestratorEnv) (q sid : String)
    (hnone : ∀ v, getenv v = none)
    (hst : st = RSOState.init (_load_all_api_keys getenv fuel)) :
    _load_all_api_keys getenv fuel = []
    ∧ (execute_massive_real_search st env q sid).1.web_results = []
    ∧ (execute_massive_real_search st env q sid).1.social_results = []
    ∧ (execute_massive_real_search st env q sid).1.youtube_results = []
    ∧ (execute_massive_real_search st env q sid).1.providers_used = []
    ∧ (execute_massive_real_search st env q sid).1.viral_content = []
    ∧ (execute_massive_real_search st env q sid).1.screenshots_captured = []
    ∧ search_results_keys.contains "success" = false
    ∧ search_results_keys.contains "error" = false := by
  have hload : _load_all_api_keys getenv fuel = [] :=
    load_all_api_keys_empty getenv fuel hnone
  have hkeys : st.api_keys = [] := by rw [hst, hload]; rfl
  have hp2 : phase2_run st env = ([], st) := phase2_run_no_keys st env hkeys
  have hmerged : orchestrator_merged st env = ([], []) := by
    simp [orchestrator_merged, hp2, websailor_fail_eq]
  have hp3 : phase3_run (phase2_run st env).2 env = ([], st) := by
    rw [hp2]
    simp [phase3_run, hkeys, assocGet]
  have hsocial : orchestrator_social st env = ([], []) := by
    unfold orchestrator_social
    rw [hp3]
    rfl
  refine ⟨hload, ?_, ?_, ?_, ?_, ?_, ?_, by decide, by decide⟩
  · simp only [execute_massive_real_search, hmerged]
  · simp only [execute_massive_real_search, hsocial]
  · simp only [execute_massive_real_search, hsocial]
  · simp only [execute_massive_real_search, hmerged]
  · simp only [execute_massive_real_search, hsocial]
    rfl
  · simp only [execute_massive_real_search, hsocial]
    rfl

/-- Closed witness for C1 amended: the empty OS environment loads no keys and
the returned document has empty result sets. -/
theorem zero_providers_empty_document_witness :
    (∀ v : String, (fun _ : String => (none : Option String)) v = none)
    ∧ (execute_massive_real_search
        (RSOState.init (_load_all_api_keys (fun _ => none) 3)) defaultEnv
        "q" "s1").1.web_results = [] :=
  ⟨fun _ => rfl,
    (zero_providers_empty_document (fun _ => none) 3
      (RSOState.init (_load_all_api_keys (fun _ => none) 3)) defaultEnv "q" "s1"
      (fun _ => rfl) rfl).2.1⟩

set_option maxHeartbeats 2000000 in
/-- C4 counterexample: a run in which Google and Serper both return a result
for the same url yields a web_results corpus holding that url twice - the
corpus in the returned document is not deduplicated by (normalized) URL. -/
theorem merged_corpus_duplicate_urls :
    ((execute_massive_real_search stC4 envC4 "q" "s1").1.web_results.countP
      (fun r => r.url == some "http://a.com")) = 2 := by
  decide

/-- C4 amended: the merged corpus in the document is the plain concatenation
of the successful providers' result lists, preserving duplicate URLs with no
normalisation; URL deduplication exists only in the unique_urls statistic,
which counts distinct raw url strings over the merged corpus and is
idempotent under merging a result set with itself. -/
theorem merge_keeps_duplicates_unique_urls_stat :
    (∀ (outs : List SearchOutcome) (acc : List ResultRec × List String),
      (outs.foldl merge_web acc).1 =
        acc.1 ++ (outs.filter (fun o => o.success && !o.results.isEmpty)).flatMap
          (fun o => o.results))
    ∧ (∀ (st : RSOState) (env : OrchestratorEnv) (q sid : String),
        (execute_massive_real_search st env q sid).1.statistics.unique_urls =
          unique_url_count
            ((execute_massive_real_search st env q sid).1.web_results ++
             (execute_massive_real_search st env q sid).1.social_results ++
             (execute_massive_real_search st env q sid).1.youtube_results))
    ∧ (∀ l : List ResultRec, unique_url_count (l ++ l) = unique_url_count l) := by
  refine ⟨merge_web_fold_results, ?_, ?_⟩
  · intro st env q sid
    simp only [execute_massive_real_search]
  · intro l
    unfold unique_url_count
    rw [List.filter_append, List.map_append]
    exact dedup_self_append_length _

/-- C5 counterexample: empty content does not always score 0 - with a
preferred-domain URL the empty content scores 20. -/
theorem quality_empty_content_not_zero :
    _calculate_content_quality "" "https://g1.globo.com/noticia" [] = 20 := by
  decide

/-- C5 amended: the quality score is always within [0, 100] for arbitrary
content, URL and keyword lists; empty content scores 0 provided additionally
that no context keyword matches the empty content (only the empty keyword
does) and the URL domain matches neither the preferred nor the blocked
list - without those provisos empty content can score 20. -/
theorem calculate_content_quality_bounds
    (content url : String) (kws : List String) :
    (0 ≤ _calculate_content_quality content url kws
      ∧ _calculate_content_quality content url kws ≤ 100)
    ∧ (content = "" →
        kws.all (fun k => !strContains (strToLower content) (strToLower k)) = true →
        preferred_domains.any
          (fun d => strContains (strToLower (netloc url)) d) = false →
        blocked_domains.any
          (fun d => strContains (strToLower (netloc url)) d) = false →
        _calculate_content_quality content url kws = 0) := by
  constructor
  · simp only [_calculate_content_quality]
    constructor
    · apply le_min
      · norm_num
      · exact le_max_left 0 _
    · exact min_le_left 100 _
  · intro hc hkw hpref hblk
    subst hc
    have hfilter : kws.filter
        (fun k => strContains (strToLower "") (strToLower k)) = [] := by
      rw [List.filter_eq_nil_iff]
      intro k hk
      have := List.all_eq_true.mp hkw k hk
      simpa using this
    simp only [_calculate_content_quality, hfilter, hpref, hblk]
    norm_num

/-- Closed witness for C5 amended: empty content, a neutral domain and one
non-matching keyword score 0, and the hypotheses hold at this input. -/
theorem calculate_content_quality_bounds_witness :
    (("" : String) = ""
      ∧ (["brasil"] : List String).all
          (fun k => !strContains (strToLower "") (strToLower k)) = true
      ∧ preferred_domains.any
          (fun d => strContains (strToLower (netloc "http://example.com/x")) d)
          = false
      ∧ blocked_domains.any
          (fun d => strContains (strToLower (netloc "http://example.com/x")) d)
          = false)
    ∧ _calculate_content_quality "" "http://example.com/x" ["brasil"] = 0 :=
  ⟨⟨rfl, by decide, by decide, by decide⟩,
    (calculate_content_quality_bounds "" "http://example.com/x" ["brasil"]).2
      rfl (by decide) (by decide) (by decide)⟩

/-- C6 counterexample: two capture requests for the same url and session path
both produce an artifact and the second performs its own navigation - the
second request is a fresh capture attempt, not a no-op cache hit, refuting
at most one ScreenshotArtifact per (url, session). -/
theorem capture_twice_counterexample :
    ((capture_twice none shotEnvOk shotEnvOk "http://a.com" "s1/shot.png").1.1.success
      = true)
    ∧ ((capture_twice none shotEnvOk shotEnvOk "http://a.com" "s1/shot.png").2.1.success
      = true)
    ∧ (DriverAction.navigate "http://a.com" ∈
        (capture_twice none shotEnvOk shotEnvOk "http://a.com" "s1/shot.png").2.2.2) := by
  decide

/-- C6 amended: the capture class records no (url, session) history - its only
cross-call state is the driver handle, cleared by the finally block on every
exit path - so every capture_screenshot call whose setup succeeds performs
its own navigation to the url and returns its own artifact for that url;
repeated requests for the same (url, session) each attempt a full capture. -/
theorem capture_screenshot_no_cache (d0 : Option Unit) (env : ShotEnv)
    (url path : String) (hsetup : env.setup = Except.ok ()) :
    DriverAction.navigate url ∈ (capture_screenshot d0 env url path).2.2
    ∧ (capture_screenshot d0 env url path).1.url = url
    ∧ (capture_screenshot d0 env url path).2.1 = none := by
  cases d0 with
  | none =>
    simp only [capture_screenshot, hsetup]
    cases env.navRaises with
    | some e => simp
    | none =>
      cases env.saveRaises with
      | some e => simp
      | none =>
        by_cases hs : env.savedOk = true
        · simp [hs]
        · simp [hs]
  | some u =>
    simp only [capture_screenshot, hsetup]
    cases env.navRaises with
    | some e => simp
    | none =>
      cases env.saveRaises with
      | some e => simp
      | none =>
        by_cases hs : env.savedOk = true
        · simp [hs]
        · simp [hs]

/-- Closed witness for C6 amended at a concrete successful environment. -/
theorem capture_screenshot_no_cache_witness :
    shotEnvOk.setup = Except.ok ()
    ∧ DriverAction.navigate "http://a.com" ∈
        (capture_screenshot none shotEnvOk "http://a.com" "p.png").2.2 :=
  ⟨rfl, (capture_screenshot_no_cache none shotEnvOk "http://a.com" "p.png" rfl).1⟩

theorem collection_error_return_spec (e : PyErr) :
    (collection_error_return e).2 ≠ []
    ∧ (∀ d, (collection_error_return e).1 = .doc d →
        PersistEvent.massiveDataJson ∈ (collection_error_return e).2)
    ∧ (∀ er det, (collection_error_return e).1 = .errorDict er det →
        PersistEvent.erro "massive_data_collection" ∈ (collection_error_return e).2) := by
  refine ⟨by simp [collection_error_return], ?_, ?_⟩
  · intro d hd
    simp [collection_error_return] at hd
  · intro er det h
    simp [collection_error_return]

/-- C2: every execute_massive_collection run persists a session artifact
before returning.  On the normal path the consolidated session document is
written to the session directory (followed by the detailed report and the
salvar_etapa record); on every exception path the except arm persists the
emergency error document through salvar_erro.  The salvar_erro and
salvar_etapa behaviour is modelled from the spec, auto_save_manager not being
under src/; the remaining control flow is the embedded source. -/
theorem execute_massive_collection_persists (env : CollectorEnv) (q sid : String) :
    (execute_massive_collection env q sid).2 ≠ []
    ∧ (∀ d, (execute_massive_collection env q sid).1 = .doc d →
        PersistEvent.massiveDataJson ∈ (execute_massive_collection env q sid).2)
    ∧ (∀ er det, (execute_massive_collection env q sid).1 = .errorDict er det →
        PersistEvent.erro "massive_data_collection" ∈
          (execute_massive_collection env q sid).2) := by
  have hattr : visual_content_capture_attrs.contains "select_top_urls" = false := by
    decide
  unfold execute_massive_collection
  cases env.interleaved_search with
  | error e => exact collection_error_return_spec e
  | ok web =>
    cases (if env.trend_available then env.trend_search
        else .ok { success := false, error := some "TrendFinder não configurado" } :
        Except PyErr TrendsData) with
    | error e => exact collection_error_return_spec e
    | ok trends =>
      cases (if env.supadata_available then env.supadata_search
          else .ok { success := false, error := some "Supadata não configurado" } :
          Except PyErr SupaData) with
      | error e => exact collection_error_return_spec e
      | ok supa =>
        simp only [hattr, Bool.false_eq_true, if_false]
        exact collection_error_return_spec _

/-- Closed witness for C2: at a concrete unconfigured environment the call
returns the emergency error dict and the persisted-event list is non-empty,
holding the salvar_erro record. -/
theorem execute_massive_collection_persists_witness :
    (execute_massive_collection collectorEnvW "q" "s1").2 ≠ []
    ∧ PersistEvent.erro "massive_data_collection" ∈
        (execute_massive_collection collectorEnvW "q" "s1").2 :=
  ⟨(execute_massive_collection_persists collectorEnvW "q" "s1").1,
    (execute_massive_collection_persists collectorEnvW "q" "s1").2.2
      "Falha na coleta massiva de dados"
      (PyErr.attributeError "select_top_urls").toMessage rfl⟩
